import Mathlib

/-!
# statsdwrap: metrics emitted by the wrapped chi handlers

A shallow embedding of `chi.go`.  Go methods become functions that pass the
observable state (`World`: a millisecond clock and the list of metric events
handed to the statsd connection) explicitly.  The two libraries the package
talks to, the statsd client and chi's status-capturing response writer, are not
part of the sources; they are modelled at their interface, following what the
library functions called from `chi.go` do.
-/

namespace Statsdwrap

/-! ## Metric events and the observable state -/

/-- One call that reaches the statsd connection: the full bucket name (client
namespace included) and, for a timing sample, the elapsed milliseconds. -/
inductive Event where
  | timing (bucket : String) (ms : Nat)
  | increment (bucket : String)
  deriving DecidableEq, Repr

/-- The bucket an event is sent to. -/
def Event.bucket : Event → String
  | .timing b _ => b
  | .increment b => b

/-- The observable state: the wall clock in milliseconds and every metric event
sent so far, oldest first. -/
structure World where
  now : Nat
  sent : List Event
  deriving DecidableEq, Repr

/-! ## The statsd client (external library) -/

/-- Modelled from the spec: the statsd client of `gopkg.in/alexcesaro/statsd.v2`
is not part of the sources.  Only the namespace it puts in front of every bucket
name is kept (`ns`, the library's bucket-name namespace); transport, sampling
and tags are out of scope. -/
structure Client where
  ns : String
  deriving DecidableEq, Repr

/-- The Go function `strings.HasSuffix(s, suffix)`. -/
def stringsHasSuffix (s suffix : String) : Bool :=
  suffix.data.isSuffixOf s.data

/-- The Go function `strings.TrimSuffix(s, suffix)`: `s` without the given
trailing suffix, or `s` itself when it does not end in it. -/
def stringsTrimSuffix (s suffix : String) : String :=
  if stringsHasSuffix s suffix then
    String.mk (s.data.take (s.data.length - suffix.data.length))
  else s

/-- The library function `Clone(opts...)` of the statsd client, with no option or
with the option `statsd.Prefix(p)`.  Without an option the clone keeps the
namespace; `statsd.Prefix(p)` appends `strings.TrimSuffix(p, ".") + "."` to it:
one trailing dot of `p` is dropped before the separating dot is added. -/
def Client.Clone (c : Client) (opt : Option String) : Client :=
  match opt with
  | none => { ns := c.ns }
  | some p => { ns := c.ns ++ (stringsTrimSuffix p "." ++ ".") }

/-- Modelled from the spec: `client.Increment(bucketName)` increments a named
counter, one event on the connection. -/
def Client.Increment (c : Client) (bucket : String) (s : World) : World :=
  { s with sent := s.sent ++ [Event.increment (c.ns ++ bucket)] }

/-- Modelled from the spec: the timing handle returned by `NewTiming()`; it
remembers its creation time and its client. -/
structure Timing where
  start : Nat
  c : Client
  deriving DecidableEq, Repr

/-- Modelled from the spec: `NewTiming()` starts a timing measurement now. -/
def Client.NewTiming (c : Client) (s : World) : Timing :=
  { start := s.now, c := c }

/-- Modelled from the spec: `timingHandle.Send(bucketName)` emits the time
elapsed since the handle was created. -/
def Timing.Send (t : Timing) (bucket : String) (s : World) : World :=
  { s with sent := s.sent ++ [Event.timing (t.c.ns ++ bucket) (s.now - t.start)] }

/-! ## Requests and response writers (external libraries) -/

/-- The part of `*http.Request` the package reads. -/
structure Request where
  ProtoMajor : Nat
  path : String
  deriving DecidableEq, Repr

/-- Modelled from the spec: the underlying `http.ResponseWriter`, reduced to
what has been sent: the status line, if any, and the number of body bytes. -/
structure ResponseWriter where
  status : Option Int
  written : Nat
  deriving DecidableEq, Repr

/-- Modelled from the spec: `WriteHeader` on the underlying writer; the first
status written is the one sent. -/
def ResponseWriter.WriteHeader (w : ResponseWriter) (code : Int) : ResponseWriter :=
  match w.status with
  | none => { w with status := some code }
  | some _ => w

/-- Modelled from the spec: `Write` on the underlying writer; a body written
before any status sends status 200 first. -/
def ResponseWriter.Write (w : ResponseWriter) (n : Nat) : ResponseWriter :=
  let w1 := w.WriteHeader 200
  { w1 with written := w1.written + n }

/-- The decorator behind chi's `middleware.WrapResponseWriter`: the wrapped
writer, whether a header has been written through it, the status code of that
header (0 until then) and the number of body bytes. -/
structure WrapResponseWriter where
  inner : ResponseWriter
  protoMajor : Nat
  wroteHeader : Bool
  code : Int
  bytes : Nat
  deriving DecidableEq, Repr

/-- The library function `middleware.NewWrapResponseWriter(w, protoMajor)`: a
decorator through which nothing has been written; the protocol major version
only selects the decorator variant. -/
def NewWrapResponseWriter (w : ResponseWriter) (protoMajor : Nat) : WrapResponseWriter :=
  { inner := w, protoMajor := protoMajor, wroteHeader := false, code := 0, bytes := 0 }

/-- The library method `WriteHeader` of the decorator: the first call records the
code and forwards it; later calls do nothing. -/
def WrapResponseWriter.WriteHeader (ww : WrapResponseWriter) (code : Int) :
    WrapResponseWriter :=
  if ww.wroteHeader then ww
  else { ww with code := code, wroteHeader := true, inner := ww.inner.WriteHeader code }

/-- The library method `Write` of the decorator: writes the header with status
200 if none was written yet, then the body. -/
def WrapResponseWriter.Write (ww : WrapResponseWriter) (n : Nat) : WrapResponseWriter :=
  let w1 := ww.WriteHeader 200
  { w1 with inner := w1.inner.Write n, bytes := w1.bytes + n }

/-- The library method `Status()` of the decorator: the recorded status code, 0
if no header has been sent yet. -/
def WrapResponseWriter.Status (ww : WrapResponseWriter) : Int :=
  ww.code

/-! ## Handlers -/

/-- How a call ends: by returning or by panicking with a value. -/
inductive Exit where
  | returned
  | panicked (value : String)
  deriving DecidableEq, Repr

/-- One call a handler makes on the response writer it is given. -/
inductive WriterCall where
  | WriteHeader (code : Int)
  | Write (n : Nat)
  deriving DecidableEq, Repr

/-- What one terminating run of a user handler does: the calls it makes on its
response writer, in order, the milliseconds it takes, and how it stops. -/
structure HandlerRun where
  calls : List WriterCall
  took : Nat
  exit : Exit
  deriving DecidableEq, Repr

/-- A user handler (`http.Handler` / `http.HandlerFunc`): its run is determined
by the request.  It has no access to the wrapper's private statsd client. -/
abbrev UserHandler := Request → HandlerRun

/-- Apply one writer call to the decorated writer. -/
def WriterCall.apply (ww : WrapResponseWriter) : WriterCall → WrapResponseWriter
  | .WriteHeader code => ww.WriteHeader code
  | .Write n => ww.Write n

/-- The result of serving one request: the response writer, the world, and how
the call ended. -/
structure Served (W : Type) where
  w : W
  world : World
  exit : Exit

/-- The call `handler.ServeHTTP(ww, r)` for a user handler: the handler's writer calls
are applied to `ww` in order and the clock advances by the time it took. -/
def UserHandler.ServeHTTP (h : UserHandler) (ww : WrapResponseWriter) (r : Request)
    (s : World) : Served WrapResponseWriter :=
  let run := h r
  { w := run.calls.foldl WriterCall.apply ww
    world := { s with now := s.now + run.took }
    exit := run.exit }

/-- A handler as the router sees it: served on the caller's response writer. -/
abbrev HttpHandler := ResponseWriter → Request → World → Served ResponseWriter

/-! ## chi.go -/

/-- The Go struct `defaultWrapper`: the wrapper's own statsd client. -/
structure defaultWrapper where
  client : Client
  deriving DecidableEq, Repr

/-- The Go function `NewChi`: clones the client, scoped to the given namespace
unless that is the empty string. -/
def NewChi (pfx : String) (statsdClient : Client) : defaultWrapper :=
  let cloneStatsdClient :=
    if pfx = "" then statsdClient.Clone none else statsdClient.Clone (some pfx)
  { client := cloneStatsdClient }

/-- The Go function `strings.Join(elems, sep)`. -/
def stringsJoin (elems : List String) (sep : String) : String :=
  sep.intercalate elems

/-- The Go struct `httpTxn`.  `ww` is shared with the handler (an interface
value holding a pointer): it holds the writer as it is when the transaction is
looked at. -/
structure httpTxn where
  name : String
  responseTimeBucket : String
  hitsBucket : String
  timing : Timing
  defaultWrapper : defaultWrapper
  ww : WrapResponseWriter
  request : Request
  buf : List Nat
  deriving DecidableEq, Repr

/-- The Go method `defaultWrapper.startTransaction`. -/
def defaultWrapper.startTransaction (d : defaultWrapper) (name : String)
    (w : WrapResponseWriter) (r : Request) (s : World) : httpTxn :=
  { name := name
    timing := d.client.NewTiming s
    responseTimeBucket := stringsJoin [name, "response_time"] "."
    hitsBucket := stringsJoin [name, "count"] "."
    defaultWrapper := d
    ww := w
    request := r
    buf := [] }

/-- The Go call `fmt.Sprintf("%s.http%d", name, status)`. -/
def sprintfHttpStatus (name : String) (status : Int) : String :=
  name ++ ".http" ++ toString status

/-- The Go method `httpTxn.Write`.  The receiver is returned next to the world:
the body assigns to none of its fields.  The argument `status` is not read. -/
def httpTxn.Write (d : httpTxn) (_status : Int) (s : World) : httpTxn × World :=
  let s1 := d.timing.Send d.responseTimeBucket s
  let httpStatusBucket := sprintfHttpStatus d.name d.ww.Status
  let s2 := d.defaultWrapper.client.Increment httpStatusBucket s1
  let s3 := d.defaultWrapper.client.Increment d.hitsBucket s2
  (d, s3)

/-- The Go method `httpTxn.End`. -/
def httpTxn.End (d : httpTxn) (s : World) : httpTxn × World :=
  d.Write d.ww.Status s

/-- The Go method `defaultWrapper.Handler`.  Building the adapter touches no
state; the world is passed through.  In the adapter the deferred `txn.End()`
runs when the handler has stopped, on return and on panic alike, and sees the
writer as the handler left it; a panic then continues to the caller. -/
def defaultWrapper.Handler (d : defaultWrapper) (routeName : String) (pattern : String)
    (handler : UserHandler) (s : World) : (String × HttpHandler) × World :=
  ((pattern, fun w r s0 =>
    let ww := NewWrapResponseWriter w r.ProtoMajor
    let txn := d.startTransaction routeName ww r s0
    let served := handler.ServeHTTP ww r s0
    let ended := httpTxn.End { txn with ww := served.w } served.world
    { w := served.w.inner, world := ended.2, exit := served.exit }), s)

/-- The Go method `defaultWrapper.HandlerFunc`. -/
def defaultWrapper.HandlerFunc (d : defaultWrapper) (routeName : String) (pattern : String)
    (handlerFunc : UserHandler) (s : World) : (String × HttpHandler) × World :=
  let res := d.Handler routeName pattern handlerFunc s
  let p := res.1.1
  let h := res.1.2
  ((p, fun w r s0 => h w r s0), res.2)

/-- A terminal call on a transaction. -/
inductive TerminalCall where
  | End
  | Write (status : Int)
  deriving DecidableEq, Repr

/-- Make the given terminal calls on a transaction, one after the other. -/
def runCalls (d : httpTxn) : List TerminalCall → World → httpTxn × World
  | [], s => (d, s)
  | TerminalCall.End :: cs, s => let r := d.End s; runCalls r.1 cs r.2
  | TerminalCall.Write st :: cs, s => let r := d.Write st s; runCalls r.1 cs r.2

/-- The namespace part of a bucket name for wrapper argument `p`: empty for the
empty string, otherwise `p` without one trailing dot, followed by a dot. -/
def scopeOf (p : String) : String :=
  if p = "" then "" else stringsTrimSuffix p "." ++ "."

/-- The namespace part `{p.}` as the specification words it: empty for the empty
string, otherwise `p` followed by a dot. -/
def specScope (p : String) : String :=
  if p = "" then "" else p ++ "."

/-- The events one invocation of the adapter built by `Handler` adds to the
world, oldest first. -/
def emitted (d : defaultWrapper) (routeName : String) (handler : UserHandler)
    (w : ResponseWriter) (r : Request) (s0 : World) : List Event :=
  (((d.Handler routeName "" handler s0).1.2 w r s0).world.sent).drop s0.sent.length

/-- The decorated writer as the handler leaves it. -/
def writerAfter (handler : UserHandler) (w : ResponseWriter) (r : Request) :
    WrapResponseWriter :=
  (handler r).calls.foldl WriterCall.apply (NewWrapResponseWriter w r.ProtoMajor)

/-! ## Sample inputs -/

/-- A handler that answers 404 with a three-byte body after 7 ms. -/
def notFoundHandler : UserHandler :=
  fun _ => { calls := [WriterCall.WriteHeader 404, WriterCall.Write 3], took := 7,
             exit := Exit.returned }

/-- A handler that writes a body without setting a status. -/
def bodyOnlyHandler : UserHandler :=
  fun _ => { calls := [WriterCall.Write 2], took := 1, exit := Exit.returned }

/-- A handler that returns after 4 ms without touching the writer. -/
def silentHandler : UserHandler :=
  fun _ => { calls := [], took := 4, exit := Exit.returned }

/-- A handler that sets status 500 and panics after 2 ms. -/
def panicHandler : UserHandler :=
  fun _ => { calls := [WriterCall.WriteHeader 500], took := 2, exit := Exit.panicked "boom" }

/-- A fresh underlying response writer. -/
def freshWriter : ResponseWriter := { status := none, written := 0 }

/-- A sample HTTP/1 request. -/
def sampleRequest : Request := { ProtoMajor := 1, path := "/" }

/-- A world at time 100 with nothing sent yet. -/
def quietWorld : World := { now := 100, sent := [] }

/-- A base statsd client without a namespace. -/
def bareClient : Client := { ns := "" }

/-! ## Lemmas on the response writer -/

/-- Once a header is written, a writer call changes neither flag nor code. -/
theorem apply_wrote (ww : WrapResponseWriter) (call : WriterCall)
    (h : ww.wroteHeader = true) :
    (call.apply ww).wroteHeader = true ∧ (call.apply ww).code = ww.code := by
  cases call <;>
    simp [WriterCall.apply, WrapResponseWriter.WriteHeader, WrapResponseWriter.Write, h]

/-- Once a header is written, its code survives every further writer call. -/
theorem foldl_wrote (calls : List WriterCall) (ww : WrapResponseWriter)
    (h : ww.wroteHeader = true) : (calls.foldl WriterCall.apply ww).code = ww.code := by
  induction calls generalizing ww with
  | nil => rfl
  | cons call rest ih =>
    have hc := apply_wrote ww call h
    rw [List.foldl_cons, ih _ hc.1, hc.2]

/-- With a body write and no `WriteHeader` call, the decorated writer ends up
reporting 200. -/
theorem foldl_body_only (calls : List WriterCall) (ww : WrapResponseWriter)
    (hw : ww.wroteHeader = false)
    (hno : ∀ code, WriterCall.WriteHeader code ∉ calls)
    (hbody : ∃ n, WriterCall.Write n ∈ calls) :
    (calls.foldl WriterCall.apply ww).Status = 200 := by
  cases calls with
  | nil =>
    obtain ⟨n, hn⟩ := hbody
    simp at hn
  | cons call rest =>
    cases call with
    | WriteHeader code => exact absurd (List.mem_cons_self _ _) (hno code)
    | Write n =>
      rw [List.foldl_cons]
      unfold WrapResponseWriter.Status
      rw [foldl_wrote rest _ (by
        simp [WriterCall.apply, WrapResponseWriter.Write, WrapResponseWriter.WriteHeader, hw])]
      simp [WriterCall.apply, WrapResponseWriter.Write, WrapResponseWriter.WriteHeader, hw]

/-! ## Lemmas on bucket names -/

/-- Appending the same string on the right is injective. -/
theorem append_right_cancel_str (a b c : String) (h : a ++ c = b ++ c) : a = b := by
  rw [String.ext_iff] at h ⊢
  simpa using h

/-- Wrappers built from one client share a namespace only when their arguments
are both empty or are both non-empty and equal up to one trailing dot. -/
theorem clone_ns_eq (c : Client) (p1 p2 : String)
    (h : (NewChi p1 c).client.ns = (NewChi p2 c).client.ns) :
    (p1 = "" ∧ p2 = "") ∨
    (p1 ≠ "" ∧ p2 ≠ "" ∧ stringsTrimSuffix p1 "." = stringsTrimSuffix p2 ".") := by
  unfold NewChi at h
  by_cases h1 : p1 = "" <;> by_cases h2 : p2 = "" <;>
    simp only [h1, h2, if_true, if_false, Client.Clone] at h
  · exact Or.inl ⟨h1, h2⟩
  · exfalso
    rw [String.ext_iff] at h
    simp at h
  · exfalso
    rw [String.ext_iff] at h
    simp at h
  · refine Or.inr ⟨h1, h2, ?_⟩
    rw [String.ext_iff] at h ⊢
    simpa using h

/-- What one invocation of the adapter emits, for any wrapper and handler. -/
theorem emitted_eq (d : defaultWrapper) (routeName : String) (handler : UserHandler)
    (w : ResponseWriter) (r : Request) (s0 : World) :
    emitted d routeName handler w r s0 =
      [ Event.timing (d.client.ns ++ (routeName ++ "." ++ "response_time")) (handler r).took,
        Event.increment (d.client.ns ++
          (routeName ++ ".http" ++ toString (writerAfter handler w r).Status)),
        Event.increment (d.client.ns ++ (routeName ++ "." ++ "count")) ] := by
  simp [emitted, defaultWrapper.Handler, httpTxn.End, httpTxn.Write, Timing.Send,
    Client.Increment, defaultWrapper.startTransaction, Client.NewTiming,
    UserHandler.ServeHTTP, sprintfHttpStatus, stringsJoin, String.intercalate,
    String.intercalate.go, writerAfter]

/-- The wrapper's namespace is the base client's namespace followed by the
namespace part of the argument. -/
theorem newChi_ns (pfx : String) (client : Client) :
    (NewChi pfx client).client.ns = client.ns ++ scopeOf pfx := by
  unfold NewChi scopeOf
  by_cases h : pfx = "" <;> simp [h, Client.Clone, String.append_assoc]

/-- A handler whose first writer call is `WriteHeader code` leaves the decorated
writer reporting `code`. -/
theorem writerAfter_first (handler : UserHandler) (w : ResponseWriter) (r : Request)
    (code : Int) (rest : List WriterCall)
    (h : (handler r).calls = WriterCall.WriteHeader code :: rest) :
    (writerAfter handler w r).Status = code := by
  unfold writerAfter WrapResponseWriter.Status
  rw [h, List.foldl_cons, foldl_wrote rest _ (by
    simp [WriterCall.apply, WrapResponseWriter.WriteHeader, NewWrapResponseWriter])]
  simp [WriterCall.apply, WrapResponseWriter.WriteHeader, NewWrapResponseWriter]

/-- The adapter's result in terms of `emitted`. -/
theorem adapter_sent (d : defaultWrapper) (routeName pattern : String)
    (handler : UserHandler) (s : World) (w : ResponseWriter) (r : Request) (s0 : World) :
    (((d.Handler routeName pattern handler s).1.2 w r s0).world.sent) =
      s0.sent ++ emitted d routeName handler w r s0 := by
  simp [emitted, defaultWrapper.Handler, httpTxn.End, httpTxn.Write, Timing.Send,
    Client.Increment, UserHandler.ServeHTTP]

/-- A terminal call leaves the transaction as it is and adds three events. -/
theorem runCalls_spec (d : httpTxn) (calls : List TerminalCall) (s : World) :
    (runCalls d calls s).1 = d ∧
    (runCalls d calls s).2.sent.length = s.sent.length + 3 * calls.length := by
  induction calls generalizing s with
  | nil => simp [runCalls]
  | cons call rest ih =>
    cases call with
    | End =>
      have h := ih (d.End s).2
      simp only [runCalls, httpTxn.End, httpTxn.Write] at h ⊢
      refine ⟨h.1, ?_⟩
      rw [h.2]
      simp [Timing.Send, Client.Increment, List.length_cons]
      omega
    | Write st =>
      have h := ih (d.Write st s).2
      simp only [runCalls, httpTxn.Write] at h ⊢
      refine ⟨h.1, ?_⟩
      rw [h.2]
      simp [Timing.Send, Client.Increment, List.length_cons]
      omega

/-! ## The claims -/

/-- C1 (amended): for every wrapper argument `pfx`, route name and handler that
returns normally, one invocation of the adapter returned by
`NewChi(pfx, client).Handler(routeName, pattern, handler)` adds exactly three
events to those already sent: one timing sample to `{q.}routeName.response_time`,
one increment to `{q.}routeName.http{status}` and one increment to
`{q.}routeName.count` (behind the base client's own namespace), where `q` is
`pfx` without one trailing dot, `{q.}` is empty when `pfx` is the empty string,
and `status` is what the decorated writer reports after the handler has run; a
handler that first sets a status gets that status.  For a `pfx` that does not
end in a dot these are the names `{pfx.}routeName...` of the specification. -/
theorem handler_emits_triple (pfx : String) (client : Client) (routeName pattern : String)
    (handler : UserHandler) (s : World) (w : ResponseWriter) (r : Request) (s0 : World)
    (hret : (handler r).exit = Exit.returned) :
    (((NewChi pfx client).Handler routeName pattern handler s).1.2 w r s0).exit
        = Exit.returned ∧
    (((NewChi pfx client).Handler routeName pattern handler s).1.2 w r s0).world.sent
        = s0.sent ++
          [ Event.timing (client.ns ++ scopeOf pfx ++ routeName ++ ".response_time")
              (handler r).took,
            Event.increment (client.ns ++ scopeOf pfx ++ routeName ++ ".http" ++
              toString (writerAfter handler w r).Status),
            Event.increment (client.ns ++ scopeOf pfx ++ routeName ++ ".count") ] ∧
    (∀ code rest, (handler r).calls = WriterCall.WriteHeader code :: rest →
      (writerAfter handler w r).Status = code) ∧
    (stringsHasSuffix pfx "." = false → scopeOf pfx = specScope pfx) ∧
    scopeOf "" = "" := by
  refine ⟨?_, ?_, ?_, ?_, rfl⟩
  · simpa [defaultWrapper.Handler, UserHandler.ServeHTTP] using hret
  · rw [adapter_sent, emitted_eq, newChi_ns]
    simp [String.append_assoc]
  · intro code rest h
    exact writerAfter_first handler w r code rest h
  · intro h
    simp [scopeOf, specScope, stringsTrimSuffix, h]

/-- Witness for C1: wrapper namespace `acme`, route `home`, a handler that sets 404. -/
theorem handler_emits_triple_witness :
    (notFoundHandler sampleRequest).exit = Exit.returned ∧
    (((NewChi "acme" bareClient).Handler "home" "/" notFoundHandler quietWorld).1.2
        freshWriter sampleRequest quietWorld).world.sent
      = [ Event.timing "acme.home.response_time" 7,
          Event.increment "acme.home.http404",
          Event.increment "acme.home.count" ] :=
  ⟨by decide,
   (handler_emits_triple "acme" bareClient "home" "/" notFoundHandler quietWorld
      freshWriter sampleRequest quietWorld (by decide)).2.1.trans (by decide)⟩

/-- Counterexample to C1 as stated: with wrapper argument `acme.` the handler
returns normally and the adapter sends to `acme.home.*`, not to the names
`{pfx.}home.*` = `acme..home.*` the claim gives. -/
theorem handler_triple_trailing_dot :
    (notFoundHandler sampleRequest).exit = Exit.returned ∧
    (((NewChi "acme." bareClient).Handler "home" "/" notFoundHandler quietWorld).1.2
        freshWriter sampleRequest quietWorld).world.sent
      = [ Event.timing "acme.home.response_time" 7,
          Event.increment "acme.home.http404",
          Event.increment "acme.home.count" ] ∧
    ¬ ((((NewChi "acme." bareClient).Handler "home" "/" notFoundHandler quietWorld).1.2
        freshWriter sampleRequest quietWorld).world.sent
      = quietWorld.sent ++
        [ Event.timing (bareClient.ns ++ specScope "acme." ++ "home" ++ ".response_time") 7,
          Event.increment (bareClient.ns ++ specScope "acme." ++ "home" ++ ".http" ++ "404"),
          Event.increment (bareClient.ns ++ specScope "acme." ++ "home" ++ ".count") ]) := by
  decide

/-- C2: for every transaction created by `startTransaction(name, w, r)` and every
status argument, `Write(status)` emits, in this order, the timing sample to
`name + "." + "response_time"`, the increment to `name + ".http" +` the decimal
status code the writer reports, and the increment to `name + "." + "count"`; the
name is used verbatim. -/
theorem write_emission_order (d : defaultWrapper) (name : String) (w : WrapResponseWriter)
    (r : Request) (s : World) (status : Int) (s1 : World) :
    ((d.startTransaction name w r s).Write status s1).2.sent = s1.sent ++
      [ Event.timing (d.client.ns ++ (name ++ "." ++ "response_time")) (s1.now - s.now),
        Event.increment (d.client.ns ++ (name ++ ".http" ++ toString w.Status)),
        Event.increment (d.client.ns ++ (name ++ "." ++ "count")) ] := by
  simp [httpTxn.Write, Timing.Send, Client.Increment, defaultWrapper.startTransaction,
    Client.NewTiming, sprintfHttpStatus, stringsJoin, String.intercalate,
    String.intercalate.go]

/-- C3: for every transaction and every two status arguments, `Write(s1)` and
`Write(s2)` emit the same events: the status bucket is named from the status the
decorated writer reports, never from the argument; and `End()` emits the same
events as `Write(s)` for every `s`. -/
theorem write_ignores_argument (txn : httpTxn) (s1 s2 : Int) (s : World) :
    txn.Write s1 s = txn.Write s2 s ∧
    txn.End s = txn.Write s1 s ∧
    (txn.Write s1 s).2.sent = s.sent ++
      [ Event.timing (txn.timing.c.ns ++ txn.responseTimeBucket) (s.now - txn.timing.start),
        Event.increment (txn.defaultWrapper.client.ns ++
          (txn.name ++ ".http" ++ toString txn.ww.Status)),
        Event.increment (txn.defaultWrapper.client.ns ++ txn.hitsBucket) ] := by
  refine ⟨rfl, rfl, ?_⟩
  simp [httpTxn.Write, Timing.Send, Client.Increment, sprintfHttpStatus]

/-- C4: when the wrapped handler panics during an invocation of the adapter
returned by `Handler`, the transaction is still ended: the timing sample and the
two increments are emitted exactly once, after the handler has stopped (the
sample measures the handler's whole run), with the status the decorated writer
reports at that moment, and the panic reaches the adapter's caller unchanged. -/
theorem panic_still_ends_transaction (d : defaultWrapper) (routeName pattern : String)
    (handler : UserHandler) (s : World) (w : ResponseWriter) (r : Request) (s0 : World)
    (v : String) (hp : (handler r).exit = Exit.panicked v) :
    ((d.Handler routeName pattern handler s).1.2 w r s0).exit = Exit.panicked v ∧
    ((d.Handler routeName pattern handler s).1.2 w r s0).world.sent = s0.sent ++
      [ Event.timing (d.client.ns ++ (routeName ++ "." ++ "response_time")) (handler r).took,
        Event.increment (d.client.ns ++
          (routeName ++ ".http" ++ toString (writerAfter handler w r).Status)),
        Event.increment (d.client.ns ++ (routeName ++ "." ++ "count")) ] := by
  refine ⟨?_, ?_⟩
  · simpa [defaultWrapper.Handler, UserHandler.ServeHTTP] using hp
  · rw [adapter_sent, emitted_eq]

/-- Witness for C4: a handler that sets status 500 and panics with `boom` after
2 ms. -/
theorem panic_still_ends_transaction_witness :
    (panicHandler sampleRequest).exit = Exit.panicked "boom" ∧
    (((NewChi "" bareClient).Handler "home" "/" panicHandler quietWorld).1.2
        freshWriter sampleRequest quietWorld).exit = Exit.panicked "boom" ∧
    (((NewChi "" bareClient).Handler "home" "/" panicHandler quietWorld).1.2
        freshWriter sampleRequest quietWorld).world.sent
      = [ Event.timing "home.response_time" 2,
          Event.increment "home.http500",
          Event.increment "home.count" ] :=
  ⟨by decide,
   (panic_still_ends_transaction (NewChi "" bareClient) "home" "/" panicHandler quietWorld
      freshWriter sampleRequest quietWorld "boom" (by decide)).1,
   (panic_still_ends_transaction (NewChi "" bareClient) "home" "/" panicHandler quietWorld
      freshWriter sampleRequest quietWorld "boom" (by decide)).2.trans (by decide)⟩

/-- C5: `HandlerFunc` has the semantics of `Handler`: for every route name,
pattern and handler function, both return the same pattern, and the function
returned by `HandlerFunc` has, on every response writer, request and world, the
same effect as the handler returned by `Handler` (same writer calls of the
handler, same emitted events, same exit). -/
theorem handlerFunc_same_as_handler (d : defaultWrapper) (routeName pattern : String)
    (f : UserHandler) (s : World) :
    (d.HandlerFunc routeName pattern f s).1.1 = (d.Handler routeName pattern f s).1.1 ∧
    (∀ (w : ResponseWriter) (r : Request) (s0 : World),
      (d.HandlerFunc routeName pattern f s).1.2 w r s0 =
        (d.Handler routeName pattern f s).1.2 w r s0) ∧
    d.HandlerFunc routeName pattern f s = d.Handler routeName pattern f s :=
  ⟨rfl, fun _ _ _ => rfl, rfl⟩

/-- C6: the first component returned by `Handler` and by `HandlerFunc` is exactly
the pattern passed in, whatever the route name and the wrapper's namespace, and
wrapping by itself emits no metric: the world is returned as it was. -/
theorem wrapping_returns_pattern (pfx : String) (client : Client)
    (routeName pattern : String) (handler : UserHandler) (s : World) :
    ((NewChi pfx client).Handler routeName pattern handler s).1.1 = pattern ∧
    ((NewChi pfx client).HandlerFunc routeName pattern handler s).1.1 = pattern ∧
    ((NewChi pfx client).Handler routeName pattern handler s).2 = s ∧
    ((NewChi pfx client).HandlerFunc routeName pattern handler s).2 = s :=
  ⟨rfl, rfl, rfl, rfl⟩

/-- C7 (amended): for every base client, every route name and every two
different wrapper arguments `p1` and `p2`, unless both are non-empty and equal
up to one trailing dot, the events emitted for one request by the wrapper built
with `NewChi(p1, client)` and by the one built with `NewChi(p2, client)` go,
position by position (timing, status count for the same status, hit count), to
different bucket names. -/
theorem namespace_scoping (c : Client) (p1 p2 routeName : String) (handler : UserHandler)
    (w : ResponseWriter) (r : Request) (s0 : World) (hne : p1 ≠ p2)
    (hdot : p1 = "" ∨ p2 = "" ∨ stringsTrimSuffix p1 "." ≠ stringsTrimSuffix p2 ".") :
    (emitted (NewChi p1 c) routeName handler w r s0).length = 3 ∧
    (emitted (NewChi p2 c) routeName handler w r s0).length = 3 ∧
    List.Forall₂ (fun e1 e2 => e1.bucket ≠ e2.bucket)
      (emitted (NewChi p1 c) routeName handler w r s0)
      (emitted (NewChi p2 c) routeName handler w r s0) := by
  have hns : (NewChi p1 c).client.ns ≠ (NewChi p2 c).client.ns := by
    intro h
    rcases clone_ns_eq c p1 p2 h with ⟨h1, h2⟩ | ⟨h1, h2, ht⟩
    · exact hne (h1.trans h2.symm)
    · rcases hdot with hd | hd | hd
      · exact h1 hd
      · exact h2 hd
      · exact hd ht
  have key : ∀ x : String, (NewChi p1 c).client.ns ++ x ≠ (NewChi p2 c).client.ns ++ x :=
    fun x h => hns (append_right_cancel_str _ _ x h)
  rw [emitted_eq, emitted_eq]
  refine ⟨rfl, rfl, ?_⟩
  refine List.Forall₂.cons (key _) (List.Forall₂.cons (key _) (List.Forall₂.cons (key _)
    List.Forall₂.nil))

/-- Witness for C7: the namespaces `acme` and `beta` on route `home`. -/
theorem namespace_scoping_witness :
    "acme" ≠ "beta" ∧
    stringsTrimSuffix "acme" "." ≠ stringsTrimSuffix "beta" "." ∧
    List.Forall₂ (fun e1 e2 => e1.bucket ≠ e2.bucket)
      (emitted (NewChi "acme" bareClient) "home" notFoundHandler freshWriter sampleRequest
        quietWorld)
      (emitted (NewChi "beta" bareClient) "home" notFoundHandler freshWriter sampleRequest
        quietWorld) :=
  ⟨by decide, by decide,
   (namespace_scoping bareClient "acme" "beta" "home" notFoundHandler freshWriter
      sampleRequest quietWorld (by decide) (Or.inr (Or.inr (by decide)))).2.2⟩

/-- Counterexample to C7 as stated: the different wrapper arguments `acme` and
`acme.` send one request's three events to the same three bucket names. -/
theorem namespace_collision_trailing_dot :
    "acme" ≠ "acme." ∧
    emitted (NewChi "acme" bareClient) "home" notFoundHandler freshWriter sampleRequest
        quietWorld
      = [ Event.timing "acme.home.response_time" 7,
          Event.increment "acme.home.http404",
          Event.increment "acme.home.count" ] ∧
    emitted (NewChi "acme." bareClient) "home" notFoundHandler freshWriter sampleRequest
        quietWorld
      = [ Event.timing "acme.home.response_time" 7,
          Event.increment "acme.home.http404",
          Event.increment "acme.home.count" ] ∧
    ¬ List.Forall₂ (fun e1 e2 => e1.bucket ≠ e2.bucket)
      (emitted (NewChi "acme" bareClient) "home" notFoundHandler freshWriter sampleRequest
        quietWorld)
      (emitted (NewChi "acme." bareClient) "home" notFoundHandler freshWriter sampleRequest
        quietWorld) := by
  have h1 : emitted (NewChi "acme" bareClient) "home" notFoundHandler freshWriter
      sampleRequest quietWorld
      = [ Event.timing "acme.home.response_time" 7,
          Event.increment "acme.home.http404",
          Event.increment "acme.home.count" ] := by decide
  have h2 : emitted (NewChi "acme." bareClient) "home" notFoundHandler freshWriter
      sampleRequest quietWorld
      = [ Event.timing "acme.home.response_time" 7,
          Event.increment "acme.home.http404",
          Event.increment "acme.home.count" ] := by decide
  refine ⟨by decide, h1, h2, ?_⟩
  rw [h1, h2]
  intro h
  cases h with
  | cons hd _ => exact hd rfl

/-- C8 (amended): for every route name, invoking a wrapped handler that never
sets a status code (it calls `WriteHeader` not at all) but writes a body sends
the status increment to `routeName + ".http200"`: the first body write sends the
header with status 200, which is what the decorated writer then reports. -/
theorem default_status_bucket (d : defaultWrapper) (routeName pattern : String)
    (handler : UserHandler) (s : World) (w : ResponseWriter) (r : Request) (s0 : World)
    (hno : ∀ code, WriterCall.WriteHeader code ∉ (handler r).calls)
    (hbody : ∃ n, WriterCall.Write n ∈ (handler r).calls) :
    (writerAfter handler w r).Status = 200 ∧
    ((d.Handler routeName pattern handler s).1.2 w r s0).world.sent = s0.sent ++
      [ Event.timing (d.client.ns ++ (routeName ++ "." ++ "response_time")) (handler r).took,
        Event.increment (d.client.ns ++ (routeName ++ ".http200")),
        Event.increment (d.client.ns ++ (routeName ++ "." ++ "count")) ] := by
  have hst : (writerAfter handler w r).Status = 200 :=
    foldl_body_only _ _ rfl hno hbody
  have hname : routeName ++ ".http" ++ toString (200 : Int) = routeName ++ ".http200" := by
    rw [String.append_assoc]
    congr 1
  refine ⟨hst, ?_⟩
  rw [adapter_sent, emitted_eq, hst, hname]

/-- Witness for C8: a handler that writes only a body. -/
theorem default_status_bucket_witness :
    (∀ code, WriterCall.WriteHeader code ∉ (bodyOnlyHandler sampleRequest).calls) ∧
    (∃ n, WriterCall.Write n ∈ (bodyOnlyHandler sampleRequest).calls) ∧
    (((NewChi "" bareClient).Handler "home" "/" bodyOnlyHandler quietWorld).1.2
        freshWriter sampleRequest quietWorld).world.sent
      = [ Event.timing "home.response_time" 1,
          Event.increment "home.http200",
          Event.increment "home.count" ] :=
  ⟨fun _ h => by simp [bodyOnlyHandler] at h,
   ⟨2, by simp [bodyOnlyHandler]⟩,
   (default_status_bucket (NewChi "" bareClient) "home" "/" bodyOnlyHandler quietWorld
      freshWriter sampleRequest quietWorld
      (fun _ h => by simp [bodyOnlyHandler] at h)
      ⟨2, by simp [bodyOnlyHandler]⟩).2.trans (by decide)⟩

/-- Counterexample to C8 as stated: a handler that writes nothing at all never
sets a status, yet its status increment goes to `home.http0`, not to
`home.http200`. -/
theorem silent_handler_status_zero :
    (∀ code, WriterCall.WriteHeader code ∉ (silentHandler sampleRequest).calls) ∧
    (((NewChi "" bareClient).Handler "home" "/" silentHandler quietWorld).1.2
        freshWriter sampleRequest quietWorld).world.sent
      = [ Event.timing "home.response_time" 4,
          Event.increment "home.http0",
          Event.increment "home.count" ] ∧
    Event.increment "home.http200" ∉
      (((NewChi "" bareClient).Handler "home" "/" silentHandler quietWorld).1.2
        freshWriter sampleRequest quietWorld).world.sent :=
  ⟨fun _ h => by simp [silentHandler] at h, by decide, by decide⟩

/-- C9: at wrapper namespace `acme`, route `home` and status 404 the wrapper
sends `acme.home.response_time`, `acme.home.http404` and `acme.home.count`; the
documented `acme.home.status404.count` is not among the buckets. -/
theorem documented_status_bucket_not_sent :
    (((NewChi "acme" bareClient).HandlerFunc "home" "/" notFoundHandler quietWorld).1.2
        freshWriter sampleRequest quietWorld).world.sent
      = [ Event.timing "acme.home.response_time" 7,
          Event.increment "acme.home.http404",
          Event.increment "acme.home.count" ] ∧
    "acme.home.status404.count" ∉
      ((((NewChi "acme" bareClient).HandlerFunc "home" "/" notFoundHandler quietWorld).1.2
        freshWriter sampleRequest quietWorld).world.sent).map Event.bucket := by
  decide

/-- C10: the terminal operation is not guarded against reuse: `k` terminal calls
(`End` or `Write`) on a transaction emit exactly `3k` events and leave the
transaction, its name and bucket-name fields included, unchanged; two `End()`
calls emit the full sequence twice. -/
theorem terminal_calls_not_guarded (d : httpTxn) (calls : List TerminalCall) (s : World) :
    (runCalls d calls s).2.sent.length = s.sent.length + 3 * calls.length ∧
    (runCalls d calls s).1.name = d.name ∧
    (runCalls d calls s).1.responseTimeBucket = d.responseTimeBucket ∧
    (runCalls d calls s).1.hitsBucket = d.hitsBucket ∧
    (runCalls d [TerminalCall.End, TerminalCall.End] s).2.sent = s.sent ++
      [ Event.timing (d.timing.c.ns ++ d.responseTimeBucket) (s.now - d.timing.start),
        Event.increment (d.defaultWrapper.client.ns ++
          (d.name ++ ".http" ++ toString d.ww.Status)),
        Event.increment (d.defaultWrapper.client.ns ++ d.hitsBucket),
        Event.timing (d.timing.c.ns ++ d.responseTimeBucket) (s.now - d.timing.start),
        Event.increment (d.defaultWrapper.client.ns ++
          (d.name ++ ".http" ++ toString d.ww.Status)),
        Event.increment (d.defaultWrapper.client.ns ++ d.hitsBucket) ] := by
  have h := runCalls_spec d calls s
  refine ⟨h.2, ?_, ?_, ?_, ?_⟩
  · rw [h.1]
  · rw [h.1]
  · rw [h.1]
  · simp [runCalls, httpTxn.End, httpTxn.Write, Timing.Send, Client.Increment,
      sprintfHttpStatus]

end Statsdwrap
